import Mathlib

/-!
# Verification of the `offers_sdk` authentication and client layer

Shallow embedding of `src/offers_sdk/auth.py`, `src/offers_sdk/client.py`
and `src/offers_sdk/models.py`.

Modelling conventions:
* Python `datetime` values are modelled as integer timestamps (seconds);
  `timedelta(minutes=5)` is the constant 300.
* `datetime.isoformat` / `datetime.fromisoformat` are modelled as an
  injective decimal string encoding of the timestamp with a partial
  inverse: the properties of the real ISO-8601 codec that the source
  relies on (never-empty output, exact round-trip, failure on
  non-conforming strings).
* JSON documents are a `JVal` inductive; a JSON object is an association
  list.  `dict.get` is key lookup returning `Option`; `data[k]` raises
  `KeyError` when the key is absent.
* Python exceptions are a single error type `Err`, one constructor per
  exception class of `src/offers_sdk/exceptions.py` plus low-level Python
  exceptions (`KeyError`, `ValueError`, ...) that escape the SDK's own
  handlers.
* `self` mutation is explicit state passing: each method returns the new
  state together with `Option Err` (the raised exception, if any), so a
  mutation performed before a raise is observable, as in Python.
* The network is a parameter: each operation receives the `HResp` value
  the server would answer with if the request is issued.
-/

namespace OffersSDK

/-- A JSON value as produced by Python's `json` module.  A non-integral
JSON number is `jfloat num scale`, denoting `num / 10^scale` (its exact
value is irrelevant to the embedded code; only truthiness and the
`isinstance(_, int)` check inspect it). -/
inductive JVal where
  | jstr (s : String)
  | jint (n : Int)
  | jfloat (num : Int) (scale : Nat)
  | jbool (b : Bool)
  | jnull
  | jarr (elems : List JVal)
  | jobj (fields : List (String × JVal))
deriving Repr

/-- Python truthiness: `not v` is true exactly on falsy values
(`None`, `""`, `0`, `0.0`, `False`, `[]`, `{}`). -/
def pyFalsy : JVal → Bool
  | .jstr s => s = ""
  | .jint n => n = 0
  | .jfloat num _ => num = 0
  | .jbool b => !b
  | .jnull => true
  | .jarr elems => elems.isEmpty
  | .jobj fields => fields.isEmpty

/-- `not v` where `v` is an optional Python value (`None` is falsy). -/
def pyNotOpt : Option JVal → Bool
  | none => true
  | some v => pyFalsy v

/-- Python `isinstance(v, int)`.  `True`/`False` are instances of `int`
in Python (`bool` is a subclass of `int`). -/
def pyIsInt : JVal → Bool
  | .jint _ => true
  | .jbool _ => true
  | _ => false

/-- `d.get(k)` on a JSON object: first binding of `k`, if any. -/
def jlookup (fields : List (String × JVal)) (k : String) : Option JVal :=
  (fields.find? (fun p => p.1 == k)).map (fun p => p.2)

/-! ## The timestamp codec (model of `datetime.isoformat` / `fromisoformat`) -/

/-- The decimal digit character for `d < 10`. -/
def digitChar : Nat → Char
  | 0 => '0' | 1 => '1' | 2 => '2' | 3 => '3' | 4 => '4'
  | 5 => '5' | 6 => '6' | 7 => '7' | 8 => '8' | _ => '9'

/-- Partial inverse of `digitChar`, read off the character's code. -/
def charDigit (c : Char) : Option Nat :=
  if 48 ≤ c.toNat && c.toNat ≤ 57 then some (c.toNat - 48) else none

/-- Decimal digit characters of `n`, most significant first. -/
def natChars (n : Nat) : List Char :=
  if n = 0 then ['0'] else ((Nat.digits 10 n).map digitChar).reverse

/-- All digit values of a character list, or `none` if a non-digit occurs. -/
def parseDigits : List Char → Option (List Nat)
  | [] => some []
  | c :: t =>
    match charDigit c, parseDigits t with
    | some d, some ds => some (d :: ds)
    | _, _ => none

/-- Parse a nonempty all-digit character list as a natural number. -/
def parseNatChars (l : List Char) : Option Nat :=
  if l.isEmpty then none
  else (parseDigits l).map (fun ds => Nat.ofDigits 10 ds.reverse)

/-- Model of `datetime.isoformat`: the timestamp's decimal encoding. -/
def isoformat (d : Int) : String :=
  if d < 0 then ⟨'-' :: natChars (-d).toNat⟩ else ⟨natChars d.toNat⟩

/-- A signed decimal timestamp, read from a character list. -/
def fromisoChars : List Char → Option Int
  | [] => none
  | c :: rest =>
    if c = '-' then (parseNatChars rest).map (fun n => -(Int.ofNat n))
    else (parseNatChars (c :: rest)).map (fun n => Int.ofNat n)

/-- Model of `datetime.fromisoformat` on a string: partial inverse of
`isoformat`; fails on any string that is not a decimal timestamp. -/
def fromisoformatStr (s : String) : Option Int :=
  fromisoChars s.data

theorem charDigit_digitChar (d : Nat) (h : d < 10) : charDigit (digitChar d) = some d := by
  interval_cases d <;> rfl

theorem parseDigits_map_digitChar (l : List Nat) (h : ∀ d ∈ l, d < 10) :
    parseDigits (l.map digitChar) = some l := by
  induction l with
  | nil => rfl
  | cons a t ih =>
    have ha : charDigit (digitChar a) = some a := charDigit_digitChar a (h a (by simp))
    have ht : parseDigits (t.map digitChar) = some t := ih (fun d hd => h d (by simp [hd]))
    simp [parseDigits, ha, ht]

theorem parseNatChars_natChars (n : Nat) : parseNatChars (natChars n) = some n := by
  by_cases h0 : n = 0
  · subst h0; rfl
  · have hd : ∀ d ∈ (Nat.digits 10 n).reverse, d < 10 := by
      intro d hd
      exact Nat.digits_lt_base (by norm_num) (List.mem_reverse.mp hd)
    have hne : Nat.digits 10 n ≠ [] := Nat.digits_ne_nil_iff_ne_zero.mpr h0
    have hmap : ((Nat.digits 10 n).map digitChar).reverse
        = ((Nat.digits 10 n).reverse).map digitChar := (List.map_reverse _ _).symm
    have hM : parseDigits (((Nat.digits 10 n).reverse).map digitChar)
        = some ((Nat.digits 10 n).reverse) := parseDigits_map_digitChar _ hd
    have hempty : (((Nat.digits 10 n).map digitChar).reverse).isEmpty = false := by
      simp [List.isEmpty_iff, hne]
    simp only [natChars, if_neg h0, parseNatChars, hempty, hmap, hM, Bool.false_eq_true,
      if_false, Option.map_some', List.reverse_reverse]
    simp [Nat.ofDigits_digits 10 n, hne]

theorem natChars_ne_nil (n : Nat) : natChars n ≠ [] := by
  by_cases h0 : n = 0
  · subst h0; decide
  · simp [natChars, h0, List.reverse_eq_nil_iff, Nat.digits_ne_nil_iff_ne_zero.mpr h0]

theorem natChars_head_ne_minus (n : Nat) : ∀ c ∈ natChars n, c ≠ '-' := by
  intro c hc
  by_cases h0 : n = 0
  · subst h0; simp [natChars] at hc; subst hc; decide
  · simp only [natChars, if_neg h0, List.mem_reverse, List.mem_map] at hc
    obtain ⟨d, hd, rfl⟩ := hc
    have : d < 10 := Nat.digits_lt_base (by norm_num) hd
    interval_cases d <;> decide

theorem isoformat_ne_empty (d : Int) : isoformat d ≠ "" := by
  unfold isoformat
  split
  · intro h
    exact List.cons_ne_nil _ _ (congrArg String.data h)
  · intro h
    exact natChars_ne_nil d.toNat (congrArg String.data h)

theorem fromisoformat_isoformat (d : Int) : fromisoformatStr (isoformat d) = some d := by
  unfold isoformat fromisoformatStr
  split
  · next hneg =>
    show fromisoChars ('-' :: natChars (-d).toNat) = some d
    simp only [fromisoChars, if_true, parseNatChars_natChars, Option.map_some']
    congr 1
    simp only [Int.ofNat_eq_coe]
    omega
  · next hpos =>
    show fromisoChars (natChars d.toNat) = some d
    rcases hl : natChars d.toNat with _ | ⟨c, rest⟩
    · exact absurd hl (natChars_ne_nil _)
    · have hc : c ≠ '-' := natChars_head_ne_minus d.toNat c (by rw [hl]; exact List.mem_cons_self c rest)
      have hp : parseNatChars (c :: rest) = some d.toNat := by rw [← hl, parseNatChars_natChars]
      simp only [fromisoChars, if_neg hc, hp, Option.map_some']
      congr 1
      simp only [Int.ofNat_eq_coe]
      omega

/-! ## Exceptions (`src/offers_sdk/exceptions.py`) -/

/-- Low-level Python exceptions that can escape the SDK's own handlers. -/
inductive PyErr where
  | keyError (key : String)
  | valueError (msg : String)
  | typeError (msg : String)
  | attributeError (msg : String)
deriving Repr, DecidableEq

/-- The SDK's exception classes (one constructor per class of
`exceptions.py`), plus `pyExc` for an unhandled Python exception and
`httpxRequestError` for an `httpx.RequestError` that propagates uncaught. -/
inductive Err where
  | tokenRefreshError (msg : String)
  | unexpectedAPIResponseError (msg : String)
  | tokenCacheError (msg : String)
  | missingTokenCacheKeysError (msg : String)
  | invalidOfferDataError (msg : String)
  | invalidProductDataError (msg : String)
  | productAlreadyRegisteredError (msg : String)
  | productNotFoundError (msg : String)
  | missingConfigurationError (msg : String)
  | httpxRequestError (msg : String)
  | pyExc (e : PyErr)
deriving Repr, DecidableEq

/-- Python `str(e)` for a low-level exception (`str(KeyError(k))` is the
key's `repr`, hence quoted). -/
def pyStr : PyErr → String
  | .keyError k => "'" ++ k ++ "'"
  | .valueError m => m
  | .typeError m => m
  | .attributeError m => m

/-- Python `str(e)` for any exception raised by the embedded code: the
message it was constructed with. -/
def errStr : Err → String
  | .tokenRefreshError m => m
  | .unexpectedAPIResponseError m => m
  | .tokenCacheError m => m
  | .missingTokenCacheKeysError m => m
  | .invalidOfferDataError m => m
  | .invalidProductDataError m => m
  | .productAlreadyRegisteredError m => m
  | .productNotFoundError m => m
  | .missingConfigurationError m => m
  | .httpxRequestError m => m
  | .pyExc e => pyStr e

/-! ## AuthManager state, the cache file and HTTP responses -/

/-- The mutable fields of `AuthManager` (`auth.py`, `__init__`).
`access_token` holds whatever Python value was assigned (normally a
string); `expires_at` is an optional datetime (integer timestamp). -/
structure AuthState where
  refresh_token : String
  base_url : String
  access_token : Option JVal := none
  expires_at : Option Int := none
deriving Repr

/-- The one cache file `.access_token.json`: absent, present but
unreadable/undecodable (`open`/`json.load` raises, `emsg` the exception's
message), or a decoded JSON object. -/
inductive CacheFile where
  | absent
  | unreadable (emsg : String)
  | obj (fields : List (String × JVal))
deriving Repr

/-- The local filesystem: the cache file, and whether `write_text`
fails (`some emsg`: every write raises `OSError(emsg)`). -/
structure FS where
  file : CacheFile
  writeError : Option String := none
deriving Repr

/-- An HTTP exchange as the client observes it: a response with status
code, decoded JSON body and raw text, or a network-level
`httpx.RequestError` carrying its message. -/
inductive HResp where
  | resp (status : Nat) (body : JVal) (text : String)
  | netError (msg : String)
deriving Repr

/-- `timedelta(minutes=5)`, in seconds. -/
def fiveMinutes : Int := 300

/-- The message of `MissingTokenCacheKeysError` in `_load_cached_token`. -/
def missingKeysMsg : String :=
  "Cached token file is missing 'access_token' or 'expires_at'"

/-- Python `data["access_token"]`-style subscript on a decoded JSON value:
`KeyError` when the key is absent, `TypeError` when the value is not a
dict. -/
def getItem (data : JVal) (k : String) : Except Err JVal :=
  match data with
  | .jobj fields =>
    match jlookup fields k with
    | some v => .ok v
    | none => .error (.pyExc (.keyError k))
  | .jstr _ => .error (.pyExc (.typeError "string indices must be integers"))
  | _ => .error (.pyExc (.typeError "object is not subscriptable"))

/-- `datetime.fromisoformat` applied to a decoded JSON value:
`TypeError` on a non-string, `ValueError` on a malformed string. -/
def fromisoformatV (v : JVal) : Except PyErr Int :=
  match v with
  | .jstr s =>
    match fromisoformatStr s with
    | some d => .ok d
    | none => .error (.valueError ("Invalid isoformat string: '" ++ s ++ "'"))
  | _ => .error (.typeError "fromisoformat: argument must be str")

/-! ## `AuthManager._load_cached_token` (`auth.py` lines 100-126)

The whole body is guarded by `TOKEN_CACHE_FILE.exists()`.  Everything
inside runs under `try`, and the `except Exception` clause re-raises
**any** failure — `MissingTokenCacheKeysError` included, since it is
raised inside the `try` — as a fresh
`TokenCacheError(f"Failed to load cached access token: {e}")`.
Note the mutation order: `self.access_token` is assigned before
`datetime.fromisoformat` runs, so a malformed `expires_at` leaves the
token assigned but the expiry untouched. -/

/-- State after `_load_cached_token`, with the raised exception if any. -/
def loadCachedToken (file : CacheFile) (s : AuthState) : AuthState × Option Err :=
  match file with
  | .absent => (s, none)
  | .unreadable emsg =>
    (s, some (.tokenCacheError ("Failed to load cached access token: " ++ emsg)))
  | .obj fields =>
    let token := jlookup fields "access_token"
    let expires := jlookup fields "expires_at"
    if pyNotOpt token || pyNotOpt expires then
      (s, some (.tokenCacheError ("Failed to load cached access token: " ++ missingKeysMsg)))
    else
      let s1 := { s with access_token := token }
      match fromisoformatV (expires.getD .jnull) with
      | .ok d => ({ s1 with expires_at := some d }, none)
      | .error pe =>
        (s1, some (.tokenCacheError ("Failed to load cached access token: " ++ pyStr pe)))

/-! ## `AuthManager._save_token_to_file` (`auth.py` lines 84-97) -/

/-- The message of the `AttributeError` raised by
`self.expires_at.isoformat()` when `expires_at` is `None`. -/
def noneIsoformatMsg : String :=
  "'NoneType' object has no attribute 'isoformat'"

/-- Filesystem after `_save_token_to_file`, with the raised exception if
any.  `json.dumps` serializes the dict (raising if `expires_at` is
`None`) before `write_text` runs; any failure is wrapped in
`TokenCacheError`. -/
def saveTokenToFile (fs : FS) (s : AuthState) : FS × Option Err :=
  match s.expires_at with
  | none =>
    (fs, some (.tokenCacheError ("Failed to write access token to cache: " ++ noneIsoformatMsg)))
  | some d =>
    match fs.writeError with
    | some m =>
      (fs, some (.tokenCacheError ("Failed to write access token to cache: " ++ m)))
    | none =>
      ({ fs with
          file := .obj [("access_token", (s.access_token).getD .jnull),
                        ("expires_at", .jstr (isoformat d))] }, none)

/-! ## `AuthManager._refresh_access_token` (`auth.py` lines 129-168)

`now` is the value of `datetime.now(timezone.utc)` during the call (time
is modelled as constant within one call).  `r` is the answer of
`POST {base_url}/auth`. -/

/-- Filesystem and state after `_refresh_access_token`, with the raised
exception if any. -/
def refreshAccessToken (now : Int) (r : HResp) (fs : FS) (s : AuthState) :
    (FS × AuthState) × Option Err :=
  match r with
  | .netError m =>
    ((fs, s), some (.tokenRefreshError ("Network error while refreshing access token: " ++ m)))
  | .resp status body text =>
    if status = 201 then
      match getItem body "access_token" with
      | .error e => ((fs, s), some e)
      | .ok tok =>
        let s1 := { s with access_token := some tok, expires_at := some (now + fiveMinutes) }
        let saved := saveTokenToFile fs s1
        ((saved.1, s1), saved.2)
    else if status = 400 then
      ((fs, s), some (.tokenRefreshError
        "Bad request while refreshing access token. The request was malformed."))
    else if status = 401 then
      ((fs, s), some (.tokenRefreshError
        "Authentication failed. The refresh token is invalid."))
    else if status = 422 then
      ((fs, s), some (.tokenRefreshError
        "Validation error: the request data did not meet schema requirements."))
    else
      ((fs, s), some (.unexpectedAPIResponseError
        ("Failed to refresh access token: " ++ toString status ++ " " ++ text)))

/-! ## `AuthManager.get_access_token` (`auth.py` lines 56-81) -/

/-- Everything observable about one `get_access_token` call:
the filesystem and manager state after it, how many `POST /auth`
refresh requests it issued, and the returned token or raised
exception. -/
structure TokenCall where
  fs : FS
  auth : AuthState
  refreshCount : Nat
  result : Except Err JVal
deriving Repr

/-- One `get_access_token()` call.  `now` is `datetime.now(timezone.utc)`
at the start of the call; `r` is the `/auth` response the server would
give if a refresh request is issued. -/
def getAccessToken (now : Int) (r : HResp) (fs : FS) (s : AuthState) : TokenCall :=
  -- if not self.access_token or not self.expires_at: self._load_cached_token()
  let loaded :=
    if pyNotOpt s.access_token || s.expires_at.isNone then loadCachedToken fs.file s
    else (s, none)
  match loaded.2 with
  | some e => ⟨fs, loaded.1, 0, .error e⟩
  | none =>
    let s1 := loaded.1
    -- if not self.access_token or not self.expires_at or now >= self.expires_at:
    let needsRefresh :=
      pyNotOpt s1.access_token ||
        (match s1.expires_at with
         | none => true
         | some e => e ≤ now)
    if needsRefresh then
      match refreshAccessToken now r fs s1 with
      | ((fs1, s2), some e) => ⟨fs1, s2, 1, .error e⟩
      | ((fs1, s2), none) => ⟨fs1, s2, 1, .ok ((s2.access_token).getD .jnull)⟩
    else
      ⟨fs, s1, 0, .ok ((s1.access_token).getD .jnull)⟩

/-! ## `uuid.UUID` (model of the stdlib constructor on a string)

Modelled subset of Python's `uuid.UUID(hex_string)`: the canonical
8-4-4-4-12 hyphenated form, normalized to lower case.  A non-conforming
string raises `ValueError`; a non-string argument fails with
`AttributeError` (Python calls `.replace` on it). -/

def isHexDigit (c : Char) : Bool :=
  (decide ('0' ≤ c) && decide (c ≤ '9')) ||
  (decide ('a' ≤ c) && decide (c ≤ 'f')) ||
  (decide ('A' ≤ c) && decide (c ≤ 'F'))

def uuidOkAux : Nat → List Char → Bool
  | _, [] => true
  | i, c :: rest =>
    (if i = 8 || i = 13 || i = 18 || i = 23 then c == '-' else isHexDigit c) &&
      uuidOkAux (i + 1) rest

def uuidOk (s : String) : Bool :=
  s.data.length == 36 && uuidOkAux 0 s.data

/-- ASCII lower-casing of one character. -/
def lowerChar (c : Char) : Char :=
  if 'A' ≤ c ∧ c ≤ 'Z' then Char.ofNat (c.toNat + 32) else c

/-- ASCII lower-casing of a string (the normalization `uuid.UUID` applies). -/
def strLower (s : String) : String :=
  ⟨s.data.map lowerChar⟩

/-- `UUID(s)` on a string: the canonical lower-case form, or `ValueError`. -/
def uuidParse (s : String) : Option String :=
  if uuidOk s then some (strLower s) else none

/-- `UUID(v)` on a decoded JSON value. -/
def pyUUID (v : JVal) : Except Err String :=
  match v with
  | .jstr s =>
    match uuidParse s with
    | some u => .ok u
    | none => .error (.pyExc (.valueError "badly formed hexadecimal UUID string"))
  | _ => .error (.pyExc (.attributeError "object cannot be parsed as a UUID hex string"))

/-! ## `Offer` (`src/offers_sdk/models.py` lines 8-59) -/

/-- The `Offer` dataclass.  `price` and `items_in_stock` hold whatever
Python value passed the `isinstance(_, int)` check (an `int`, or a
`bool` — Python's `bool` subclasses `int`). -/
structure Offer where
  id : String
  price : JVal
  items_in_stock : JVal
  product_id : Option String := none
deriving Repr

/-- The body of the `try` block of `Offer.from_dict`, in Python's
evaluation order: `data["id"]`, `UUID(...)`, `data["price"]`,
`data["items_in_stock"]`, the two `isinstance` checks, then
`product_id = UUID(data["product_id"]) if "product_id" in data and data["product_id"] else None`
(the final `Offer(...)` construction is written once per `product_id`
case). -/
def offerFromDictBody (data : JVal) : Except Err Offer :=
  match getItem data "id" with
  | .error e => .error e
  | .ok idv =>
    match pyUUID idv with
    | .error e => .error e
    | .ok id_ =>
      match getItem data "price" with
      | .error e => .error e
      | .ok price =>
        match getItem data "items_in_stock" with
        | .error e => .error e
        | .ok items_in_stock =>
          if !pyIsInt price then
            .error (.invalidOfferDataError "Offer price must be an integer.")
          else if !pyIsInt items_in_stock then
            .error (.invalidOfferDataError "Items in stock must be an integer.")
          else
            match (match data with | .jobj fields => jlookup fields "product_id" | _ => none) with
            | some v =>
              if !pyFalsy v then
                match pyUUID v with
                | .error e => .error e
                | .ok u =>
                  .ok { id := id_, price := price, items_in_stock := items_in_stock,
                        product_id := some u }
              else
                .ok { id := id_, price := price, items_in_stock := items_in_stock,
                      product_id := none }
            | none =>
              .ok { id := id_, price := price, items_in_stock := items_in_stock,
                    product_id := none }

/-- The two `except` clauses of `Offer.from_dict`: `KeyError` and
`ValueError` are wrapped in `InvalidOfferDataError` messages; anything
else (including the `InvalidOfferDataError`s raised inside the `try`)
propagates unchanged. -/
def wrapFromDictErr : Err → Err
  | .pyExc (.keyError k) =>
    .invalidOfferDataError ("Missing required offer field: '" ++ k ++ "'")
  | .pyExc (.valueError m) =>
    .invalidOfferDataError ("Invalid value in offer data: " ++ m)
  | e => e

/-- `Offer.from_dict`: the `try` body under the two `except` clauses. -/
def offerFromDict (data : JVal) : Except Err Offer :=
  match offerFromDictBody data with
  | .error e => .error (wrapFromDictErr e)
  | .ok o => .ok o

/-- The `Product` dataclass (`models.py` lines 62-113); carried through
`register_product` as data. -/
structure Product where
  id : String
  name : String
  description : String
  offers : List Offer
deriving Repr

/-! ## `OffersAPIClient` (`src/offers_sdk/client.py`)

Each domain operation is one "attempt template" (`registerProductStep`,
`getOffersStep`): fetch a token, issue the domain request, dispatch on
the status code; the 401 branch either invokes the retry continuation
(after discarding the in-memory token) or raises the terminal
`Unauthorized` `TokenRefreshError`.  The public operations instantiate
the template with a second attempt as the continuation, mirroring the
recursive call with `retry=False`. -/

/-- The inputs one attempt consumes: the call's wall-clock time and the
responses the two endpoints would give if contacted. -/
structure Attempt where
  now : Int
  refreshResp : HResp
  domainResp : HResp
deriving Repr

/-- Everything observable about one client operation: filesystem and
auth state after it, how many `/auth` refresh requests and how many
domain requests were issued, and the returned value or raised
exception. -/
structure ClientCall (α : Type) where
  fs : FS
  auth : AuthState
  refreshCount : Nat
  domainCount : Nat
  result : Except Err α
deriving Repr

/-- One attempt of `register_product` (`client.py` lines 75-122).
`retryK none` is a call with `retry=False`. -/
def registerProductStep (p : Product) (att : Attempt) (fs : FS) (s : AuthState)
    (retryK : Option (FS → AuthState → ClientCall Product)) : ClientCall Product :=
  let tc := getAccessToken att.now att.refreshResp fs s
  match tc.result with
  | .error e =>
    ⟨tc.fs, tc.auth, tc.refreshCount, 0,
      .error (.tokenRefreshError ("Failed to get access token: " ++ errStr e))⟩
  | .ok _ =>
    match att.domainResp with
    | .netError m => ⟨tc.fs, tc.auth, tc.refreshCount, 1, .error (.httpxRequestError m)⟩
    | .resp status body text =>
      if status = 201 then
        let res : Except Err Product := do
          let idv ← getItem body "id"
          let idS ← pyUUID idv
          pure { id := idS, name := p.name, description := p.description, offers := p.offers }
        ⟨tc.fs, tc.auth, tc.refreshCount, 1, res⟩
      else if status = 401 then
        match retryK with
        | some k =>
          let r := k tc.fs { tc.auth with access_token := none }
          ⟨r.fs, r.auth, tc.refreshCount + r.refreshCount, 1 + r.domainCount, r.result⟩
        | none =>
          ⟨tc.fs, tc.auth, tc.refreshCount, 1,
            .error (.tokenRefreshError "Unauthorized: access token is invalid or expired.")⟩
      else if status = 409 then
        ⟨tc.fs, tc.auth, tc.refreshCount, 1,
          .error (.productAlreadyRegisteredError "Product already registered.")⟩
      else if status = 422 then
        ⟨tc.fs, tc.auth, tc.refreshCount, 1,
          .error (.invalidProductDataError ("Invalid product data: " ++ text))⟩
      else
        ⟨tc.fs, tc.auth, tc.refreshCount, 1,
          .error (.unexpectedAPIResponseError (toString status ++ ", " ++ text))⟩

/-- `register_product(product)` with its single 401 retry: the first
attempt's 401 branch discards the in-memory token and runs the second
attempt with `retry=False`. -/
def registerProduct (p : Product) (a1 a2 : Attempt) (fs : FS) (s : AuthState) :
    ClientCall Product :=
  registerProductStep p a1 fs s (some (fun fs1 s1 => registerProductStep p a2 fs1 s1 none))

/-- Python iteration `for o in offers_data` over a decoded JSON value:
a list yields its elements, a dict its keys, a string its characters;
anything else raises `TypeError`. -/
def pyIterate : JVal → Except PyErr (List JVal)
  | .jarr elems => .ok elems
  | .jobj fields => .ok (fields.map (fun kv => .jstr kv.1))
  | .jstr str => .ok (str.data.map (fun c => .jstr (String.mk [c])))
  | _ => .error (.typeError "object is not iterable")

/-- The list comprehension `[Offer.from_dict(o) for o in offers_data]`:
left to right, aborting at the first exception. -/
def fromDictAll : List JVal → Except Err (List Offer)
  | [] => .ok []
  | x :: xs =>
    match offerFromDict x with
    | .error e => .error e
    | .ok o =>
      match fromDictAll xs with
      | .error e => .error e
      | .ok os => .ok (o :: os)

/-- The 200 branch of `get_product_with_offers`: the list comprehension
`[Offer.from_dict(o) for o in offers_data]` under
`except Exception as e: raise InvalidOfferDataError(f"Error parsing offers: {e}")`. -/
def parseOffers200 (body : JVal) : Except Err (List Offer) :=
  let attempt : Except Err (List Offer) :=
    match pyIterate body with
    | .error pe => .error (.pyExc pe)
    | .ok items => fromDictAll items
  match attempt with
  | .ok offers => .ok offers
  | .error e => .error (.invalidOfferDataError ("Error parsing offers: " ++ errStr e))

/-- One attempt of `get_product_with_offers` (`client.py` lines 145-179). -/
def getOffersStep (pid : String) (att : Attempt) (fs : FS) (s : AuthState)
    (retryK : Option (FS → AuthState → ClientCall (List Offer))) : ClientCall (List Offer) :=
  let tc := getAccessToken att.now att.refreshResp fs s
  match tc.result with
  | .error e =>
    ⟨tc.fs, tc.auth, tc.refreshCount, 0,
      .error (.tokenRefreshError ("Failed to get access token: " ++ errStr e))⟩
  | .ok _ =>
    match att.domainResp with
    | .netError m => ⟨tc.fs, tc.auth, tc.refreshCount, 1, .error (.httpxRequestError m)⟩
    | .resp status body text =>
      if status = 200 then
        ⟨tc.fs, tc.auth, tc.refreshCount, 1, parseOffers200 body⟩
      else if status = 401 then
        match retryK with
        | some k =>
          let r := k tc.fs { tc.auth with access_token := none }
          ⟨r.fs, r.auth, tc.refreshCount + r.refreshCount, 1 + r.domainCount, r.result⟩
        | none =>
          ⟨tc.fs, tc.auth, tc.refreshCount, 1,
            .error (.tokenRefreshError "Unauthorized: access token is invalid or expired.")⟩
      else if status = 404 then
        ⟨tc.fs, tc.auth, tc.refreshCount, 1,
          .error (.productNotFoundError ("Product " ++ pid ++ " not found or not registered."))⟩
      else if status = 422 then
        ⟨tc.fs, tc.auth, tc.refreshCount, 1,
          .error (.invalidProductDataError ("Invalid product ID: " ++ text))⟩
      else
        ⟨tc.fs, tc.auth, tc.refreshCount, 1,
          .error (.unexpectedAPIResponseError (toString status ++ ", " ++ text))⟩

/-- `get_product_with_offers(product_id)` with its single 401 retry. -/
def getProductWithOffers (pid : String) (a1 a2 : Attempt) (fs : FS) (s : AuthState) :
    ClientCall (List Offer) :=
  getOffersStep pid a1 fs s (some (fun fs1 s1 => getOffersStep pid a2 fs1 s1 none))

/-! ## Concrete values used by witnesses -/

/-- A fresh `AuthManager` state (`AuthManager("refresh", base_url)`). -/
def authInit : AuthState := { refresh_token := "refresh", base_url := "https://api" }

/-- A filesystem with no cache file and working writes. -/
def fsInit : FS := { file := .absent }

/-- A canonical UUID string. -/
def uuidA : String := "3fa85f64-5717-4562-b3fc-2c963f66afa6"

/-- A second canonical UUID string. -/
def uuidB : String := "00000000-0000-0000-0000-000000000002"

/-! ## Claim theorems -/

/-- C2 (code_bug evaluation): on a cache file that exists but lacks
`expires_at`, `_load_cached_token` raises a plain `TokenCacheError`
wrapping the missing-keys message — not a `MissingTokenCacheKeysError`
as the method's own docstring promises — because the
`MissingTokenCacheKeysError` raised inside the `try` is caught by
`except Exception` and re-raised as `TokenCacheError`.  The state is
unchanged. -/
theorem load_missing_keys_is_plain_TokenCacheError :
    loadCachedToken (.obj [("access_token", .jstr "incomplete")])
        { refresh_token := "r", base_url := "u" }
      = ({ refresh_token := "r", base_url := "u" },
         some (.tokenCacheError
           "Failed to load cached access token: Cached token file is missing 'access_token' or 'expires_at'")) := by
  rfl

/-- C4: saving a token record (a nonempty token string and an expiry
timestamp) with `_save_token_to_file` and loading it back with
`_load_cached_token` raises nothing and reproduces the same token and
the exact same expiry. -/
theorem save_then_load_roundtrip (fs : FS) (s s2 : AuthState) (t : String) (d : Int)
    (htok : s.access_token = some (.jstr t)) (ht : t ≠ "")
    (hexp : s.expires_at = some d) (hw : fs.writeError = none) :
    (saveTokenToFile fs s).2 = none ∧
    (loadCachedToken (saveTokenToFile fs s).1.file s2).2 = none ∧
    (loadCachedToken (saveTokenToFile fs s).1.file s2).1.access_token = some (.jstr t) ∧
    (loadCachedToken (saveTokenToFile fs s).1.file s2).1.expires_at = some d := by
  have hfile : (saveTokenToFile fs s).1.file
      = .obj [("access_token", .jstr t), ("expires_at", .jstr (isoformat d))] := by
    simp [saveTokenToFile, hexp, hw, htok]
  have hsave : (saveTokenToFile fs s).2 = none := by
    simp [saveTokenToFile, hexp, hw]
  rw [hfile]
  refine ⟨hsave, ?_, ?_, ?_⟩ <;>
    simp [loadCachedToken, jlookup, pyNotOpt, pyFalsy, ht, isoformat_ne_empty d,
      fromisoformatV, fromisoformat_isoformat]

/-- Witness for C4 at a concrete record. -/
theorem save_then_load_roundtrip_witness :
    (saveTokenToFile fsInit { authInit with access_token := some (.jstr "tok"), expires_at := some 1234 }).2 = none ∧
    (loadCachedToken (saveTokenToFile fsInit { authInit with access_token := some (.jstr "tok"), expires_at := some 1234 }).1.file authInit).2 = none ∧
    (loadCachedToken (saveTokenToFile fsInit { authInit with access_token := some (.jstr "tok"), expires_at := some 1234 }).1.file authInit).1.access_token = some (.jstr "tok") ∧
    (loadCachedToken (saveTokenToFile fsInit { authInit with access_token := some (.jstr "tok"), expires_at := some 1234 }).1.file authInit).1.expires_at = some 1234 :=
  save_then_load_roundtrip fsInit
    { authInit with access_token := some (.jstr "tok"), expires_at := some 1234 }
    authInit "tok" 1234 rfl (by decide) rfl rfl

/-- C9 counterexample: two offer dictionaries on which the claim fails.
The first lacks `price` but its error message reports an invalid value
(the `id` is consulted first and fails UUID parsing), identifying no
missing field.  The second has a non-integer `price` but its error
message reports `items_in_stock` as missing (both subscripts run before
the `isinstance` check), not a price type mismatch. -/
theorem offer_price_errors_counterexample :
    offerFromDict (.jobj [("id", .jstr "invalid-uuid")])
      = .error (.invalidOfferDataError
          "Invalid value in offer data: badly formed hexadecimal UUID string") ∧
    offerFromDict (.jobj [("id", .jstr uuidA), ("price", .jstr "free")])
      = .error (.invalidOfferDataError "Missing required offer field: 'items_in_stock'") :=
  ⟨rfl, rfl⟩

/-- C9 amended: provided `id` is present and parses as a UUID, an offer
dictionary lacking `price` fails with the message naming the missing
`price` field; and provided additionally that `items_in_stock` is
present and `price` is neither an `int` nor a `bool` (Python's `bool`
passes `isinstance(_, int)`), a present non-integer `price` fails with
the type-mismatch message. -/
theorem offer_price_errors_amended (fields : List (String × JVal)) (u w : String)
    (hid : jlookup fields "id" = some (.jstr u)) (hu : uuidParse u = some w) :
    (jlookup fields "price" = none →
      offerFromDict (.jobj fields)
        = .error (.invalidOfferDataError "Missing required offer field: 'price'")) ∧
    (∀ p, jlookup fields "price" = some p → pyIsInt p = false →
      (jlookup fields "items_in_stock").isSome →
      offerFromDict (.jobj fields)
        = .error (.invalidOfferDataError "Offer price must be an integer.")) := by
  constructor
  · intro hp
    simp [offerFromDict, offerFromDictBody, wrapFromDictErr, getItem, hid, hu, hp, pyUUID]
  · intro p hp hpint hitems
    obtain ⟨iv, hiv⟩ := Option.isSome_iff_exists.mp hitems
    simp [offerFromDict, offerFromDictBody, wrapFromDictErr, getItem, hid, hu, hp, hpint,
      hiv, pyUUID]

/-- Witness for C9's amended theorem at two concrete dictionaries. -/
theorem offer_price_errors_amended_witness :
    offerFromDict (.jobj [("id", .jstr uuidA)])
      = .error (.invalidOfferDataError "Missing required offer field: 'price'") ∧
    offerFromDict (.jobj [("id", .jstr uuidA), ("price", .jstr "free"), ("items_in_stock", .jint 5)])
      = .error (.invalidOfferDataError "Offer price must be an integer.") :=
  ⟨(offer_price_errors_amended [("id", .jstr uuidA)] uuidA uuidA rfl (by decide)).1 rfl,
   (offer_price_errors_amended
      [("id", .jstr uuidA), ("price", .jstr "free"), ("items_in_stock", .jint 5)]
      uuidA uuidA rfl (by decide)).2 (.jstr "free") rfl rfl rfl⟩

/-- C3: a refresh response of 400, 401 or 422 leaves the `AuthManager`
state and the cache file unchanged and raises `TokenRefreshError`; a
network-level failure likewise raises `TokenRefreshError` without
mutation; any other non-201 status raises
`UnexpectedAPIResponseError` without mutation. -/
theorem refresh_error_behaviour (now : Int) (fs : FS) (s : AuthState) :
    (∀ c body text, c = 400 ∨ c = 401 ∨ c = 422 →
      (refreshAccessToken now (.resp c body text) fs s).1.2 = s ∧
      (refreshAccessToken now (.resp c body text) fs s).1.1 = fs ∧
      ∃ m, (refreshAccessToken now (.resp c body text) fs s).2 = some (.tokenRefreshError m)) ∧
    (∀ m, (refreshAccessToken now (.netError m) fs s).1.2 = s ∧
      (refreshAccessToken now (.netError m) fs s).1.1 = fs ∧
      ∃ m2, (refreshAccessToken now (.netError m) fs s).2 = some (.tokenRefreshError m2)) ∧
    (∀ c body text, c ≠ 201 → c ≠ 400 → c ≠ 401 → c ≠ 422 →
      (refreshAccessToken now (.resp c body text) fs s).1.2 = s ∧
      (refreshAccessToken now (.resp c body text) fs s).1.1 = fs ∧
      ∃ m, (refreshAccessToken now (.resp c body text) fs s).2
        = some (.unexpectedAPIResponseError m)) := by
  refine ⟨?_, ?_, ?_⟩
  · rintro c body text (rfl | rfl | rfl) <;> exact ⟨rfl, rfl, _, rfl⟩
  · intro m
    exact ⟨rfl, rfl, _, rfl⟩
  · intro c body text h1 h2 h3 h4
    refine ⟨?_, ?_, "Failed to refresh access token: " ++ toString c ++ " " ++ text, ?_⟩ <;>
      simp [refreshAccessToken, h1, h2, h3, h4]

/-- Witness for C3 at status 400 on a fresh manager. -/
theorem refresh_error_behaviour_witness :
    (refreshAccessToken 0 (.resp 400 .jnull "") fsInit authInit).1.2 = authInit ∧
    (refreshAccessToken 0 (.resp 400 .jnull "") fsInit authInit).1.1 = fsInit ∧
    ∃ m, (refreshAccessToken 0 (.resp 400 .jnull "") fsInit authInit).2
      = some (.tokenRefreshError m) :=
  (refresh_error_behaviour 0 fsInit authInit).1 400 .jnull "" (Or.inl rfl)

/-- C5: when the refresh request answers 201, `get_access_token` parses
`access_token` from the body, sets the expiry to the call's time plus
exactly five minutes, persists the record to the cache file, and returns
the new token, in one refresh request. -/
theorem getAccessToken_201_refresh (now : Int) (fs : FS) (s : AuthState) (body : JVal)
    (text : String) (tok : JVal)
    (hs : s.access_token = none) (hse : s.expires_at = none)
    (hfile : fs.file = .absent) (hw : fs.writeError = none)
    (hbody : getItem body "access_token" = .ok tok) :
    (getAccessToken now (.resp 201 body text) fs s).result = .ok tok ∧
    (getAccessToken now (.resp 201 body text) fs s).auth.access_token = some tok ∧
    (getAccessToken now (.resp 201 body text) fs s).auth.expires_at
      = some (now + fiveMinutes) ∧
    (getAccessToken now (.resp 201 body text) fs s).fs.file
      = .obj [("access_token", tok), ("expires_at", .jstr (isoformat (now + fiveMinutes)))] ∧
    (getAccessToken now (.resp 201 body text) fs s).refreshCount = 1 := by
  have hrefresh : refreshAccessToken now (.resp 201 body text) fs s
      = (({ fs with file := .obj [("access_token", tok),
              ("expires_at", .jstr (isoformat (now + fiveMinutes)))] },
          { s with access_token := some tok, expires_at := some (now + fiveMinutes) }),
         none) := by
    simp [refreshAccessToken, hbody, saveTokenToFile, hw]
  simp [getAccessToken, hs, hse, hfile, loadCachedToken, pyNotOpt, hrefresh]

/-- Witness for C5 on a fresh manager at time 0. -/
theorem getAccessToken_201_refresh_witness :
    (getAccessToken 0 (.resp 201 (.jobj [("access_token", .jstr "tok")]) "") fsInit authInit).result
      = .ok (.jstr "tok") ∧
    (getAccessToken 0 (.resp 201 (.jobj [("access_token", .jstr "tok")]) "") fsInit authInit).auth.access_token
      = some (.jstr "tok") ∧
    (getAccessToken 0 (.resp 201 (.jobj [("access_token", .jstr "tok")]) "") fsInit authInit).auth.expires_at
      = some (0 + fiveMinutes) ∧
    (getAccessToken 0 (.resp 201 (.jobj [("access_token", .jstr "tok")]) "") fsInit authInit).fs.file
      = .obj [("access_token", .jstr "tok"), ("expires_at", .jstr (isoformat (0 + fiveMinutes)))] ∧
    (getAccessToken 0 (.resp 201 (.jobj [("access_token", .jstr "tok")]) "") fsInit authInit).refreshCount = 1 :=
  getAccessToken_201_refresh 0 fsInit authInit (.jobj [("access_token", .jstr "tok")]) ""
    (.jstr "tok") rfl rfl rfl rfl rfl

/-- C6: starting from a manager with no token and no cache file, two
consecutive `get_access_token` calls within the five-minute validity
window issue exactly one refresh request in total: the first call
refreshes once, the second call issues no refresh, reuses the held
token and leaves the state unchanged. -/
theorem two_calls_single_refresh (t1 t2 : Int) (fs : FS) (s : AuthState) (body : JVal)
    (text : String) (tok : String) (r2 : HResp)
    (hs : s.access_token = none) (hse : s.expires_at = none)
    (hfile : fs.file = .absent) (hw : fs.writeError = none)
    (hbody : getItem body "access_token" = .ok (.jstr tok)) (htok : tok ≠ "")
    (ht : t2 < t1 + fiveMinutes) :
    (getAccessToken t1 (.resp 201 body text) fs s).refreshCount = 1 ∧
    (getAccessToken t2 r2 (getAccessToken t1 (.resp 201 body text) fs s).fs
        (getAccessToken t1 (.resp 201 body text) fs s).auth).refreshCount = 0 ∧
    (getAccessToken t2 r2 (getAccessToken t1 (.resp 201 body text) fs s).fs
        (getAccessToken t1 (.resp 201 body text) fs s).auth).result = .ok (.jstr tok) ∧
    (getAccessToken t2 r2 (getAccessToken t1 (.resp 201 body text) fs s).fs
        (getAccessToken t1 (.resp 201 body text) fs s).auth).auth
      = (getAccessToken t1 (.resp 201 body text) fs s).auth := by
  have h1 : getAccessToken t1 (.resp 201 body text) fs s
      = ⟨{ fs with file := .obj [("access_token", .jstr tok),
             ("expires_at", .jstr (isoformat (t1 + fiveMinutes)))] },
         { s with access_token := some (.jstr tok), expires_at := some (t1 + fiveMinutes) },
         1, .ok (.jstr tok)⟩ := by
    simp [getAccessToken, hs, hse, hfile, loadCachedToken, pyNotOpt, refreshAccessToken,
      hbody, saveTokenToFile, hw]
  have hle : ¬ (t1 + fiveMinutes ≤ t2) := by omega
  rw [h1]
  simp [getAccessToken, pyNotOpt, pyFalsy, htok, hle]

/-- Witness for C6: two calls at times 0 and 100 from a fresh manager. -/
theorem two_calls_single_refresh_witness :
    (getAccessToken 0 (.resp 201 (.jobj [("access_token", .jstr "tok")]) "") fsInit authInit).refreshCount = 1 ∧
    (getAccessToken 100 (.netError "down")
        (getAccessToken 0 (.resp 201 (.jobj [("access_token", .jstr "tok")]) "") fsInit authInit).fs
        (getAccessToken 0 (.resp 201 (.jobj [("access_token", .jstr "tok")]) "") fsInit authInit).auth).refreshCount = 0 ∧
    (getAccessToken 100 (.netError "down")
        (getAccessToken 0 (.resp 201 (.jobj [("access_token", .jstr "tok")]) "") fsInit authInit).fs
        (getAccessToken 0 (.resp 201 (.jobj [("access_token", .jstr "tok")]) "") fsInit authInit).auth).result = .ok (.jstr "tok") ∧
    (getAccessToken 100 (.netError "down")
        (getAccessToken 0 (.resp 201 (.jobj [("access_token", .jstr "tok")]) "") fsInit authInit).fs
        (getAccessToken 0 (.resp 201 (.jobj [("access_token", .jstr "tok")]) "") fsInit authInit).auth).auth
      = (getAccessToken 0 (.resp 201 (.jobj [("access_token", .jstr "tok")]) "") fsInit authInit).auth :=
  two_calls_single_refresh 0 100 fsInit authInit (.jobj [("access_token", .jstr "tok")]) ""
    "tok" (.netError "down") rfl rfl rfl rfl rfl (by decide) (by decide)

/-- C7: after the client clears the in-memory token (401 handling), the
next `get_access_token` call reloads the on-disk cache.  If the disk
record holds a (nonempty) token that is still unexpired, the call
returns exactly that token with no refresh request; if the disk record
is expired, or the file is absent, a refresh request is issued. -/
theorem retry_reads_disk_cache (now : Int) (r : HResp) (fs : FS) (s : AuthState)
    (tok : String) (e : Int)
    (hcleared : s.access_token = none) (htok : tok ≠ "") :
    (fs.file = .obj [("access_token", .jstr tok), ("expires_at", .jstr (isoformat e))] →
      (now < e →
        (getAccessToken now r fs s).refreshCount = 0 ∧
        (getAccessToken now r fs s).result = .ok (.jstr tok) ∧
        (getAccessToken now r fs s).auth.access_token = some (.jstr tok)) ∧
      (e ≤ now → (getAccessToken now r fs s).refreshCount = 1)) ∧
    (fs.file = .absent → (getAccessToken now r fs s).refreshCount = 1) := by
  constructor
  · intro hfile
    have hload : loadCachedToken fs.file s
        = ({ s with access_token := some (.jstr tok), expires_at := some e }, none) := by
      simp [hfile, loadCachedToken, jlookup, pyNotOpt, pyFalsy, htok, isoformat_ne_empty e,
        fromisoformatV, fromisoformat_isoformat]
    constructor
    · intro hlt
      have hle : ¬ (e ≤ now) := by omega
      simp [getAccessToken, hcleared, pyNotOpt, hload, pyFalsy, htok, hle]
    · intro hge
      rcases hR : refreshAccessToken now r fs
          { s with access_token := some (.jstr tok), expires_at := some e } with ⟨⟨fs1, s2⟩, oe⟩
      cases oe <;>
        simp [getAccessToken, hcleared, pyNotOpt, hload, pyFalsy, htok, hge, hR]
  · intro hfile
    rcases hR : refreshAccessToken now r fs s with ⟨⟨fs1, s2⟩, oe⟩
    cases oe <;>
      simp [getAccessToken, hcleared, pyNotOpt, hfile, loadCachedToken, hR]

/-- Witness for C7: a cleared manager, a disk record expiring at 100,
read at time 0 (still valid). -/
theorem retry_reads_disk_cache_witness :
    (getAccessToken 0 (.netError "down")
        { file := .obj [("access_token", .jstr "tok"), ("expires_at", .jstr (isoformat 100))] }
        authInit).refreshCount = 0 ∧
    (getAccessToken 0 (.netError "down")
        { file := .obj [("access_token", .jstr "tok"), ("expires_at", .jstr (isoformat 100))] }
        authInit).result = .ok (.jstr "tok") ∧
    (getAccessToken 0 (.netError "down")
        { file := .obj [("access_token", .jstr "tok"), ("expires_at", .jstr (isoformat 100))] }
        authInit).auth.access_token = some (.jstr "tok") :=
  ((retry_reads_disk_cache 0 (.netError "down")
      { file := .obj [("access_token", .jstr "tok"), ("expires_at", .jstr (isoformat 100))] }
      authInit "tok" 100 rfl (by decide)).1 rfl).1 (by decide)

/-- C10: in both `register_product` and `get_product_with_offers`, any
exception raised by `get_access_token` — cache errors included — is
caught by the `except Exception` clause and re-raised as
`TokenRefreshError("Failed to get access token: ...")`, so no error
reaches the caller under its original type. -/
theorem token_errors_wrapped (p : Product) (pid : String) (a1 a2 : Attempt)
    (fs : FS) (s : AuthState) (e : Err)
    (h : (getAccessToken a1.now a1.refreshResp fs s).result = .error e) :
    (registerProduct p a1 a2 fs s).result
      = .error (.tokenRefreshError ("Failed to get access token: " ++ errStr e)) ∧
    (getProductWithOffers pid a1 a2 fs s).result
      = .error (.tokenRefreshError ("Failed to get access token: " ++ errStr e)) := by
  rcases hgc : getAccessToken a1.now a1.refreshResp fs s with ⟨fs1, s1, rc1, res1⟩
  rw [hgc] at h
  obtain rfl : res1 = .error e := h
  constructor <;>
    simp [registerProduct, registerProductStep, getProductWithOffers, getOffersStep, hgc]

/-- Witness for C10: an unreadable cache file makes `get_access_token`
raise `TokenCacheError`; both operations surface it wrapped. -/
theorem token_errors_wrapped_witness :
    (registerProduct ⟨uuidB, "n", "d", []⟩ ⟨0, .netError "down", .netError "down"⟩
        ⟨0, .netError "down", .netError "down"⟩ { file := .unreadable "boom" } authInit).result
      = .error (.tokenRefreshError
          ("Failed to get access token: "
            ++ errStr (.tokenCacheError "Failed to load cached access token: boom"))) ∧
    (getProductWithOffers uuidB ⟨0, .netError "down", .netError "down"⟩
        ⟨0, .netError "down", .netError "down"⟩ { file := .unreadable "boom" } authInit).result
      = .error (.tokenRefreshError
          ("Failed to get access token: "
            ++ errStr (.tokenCacheError "Failed to load cached access token: boom"))) :=
  token_errors_wrapped ⟨uuidB, "n", "d", []⟩ uuidB ⟨0, .netError "down", .netError "down"⟩
    ⟨0, .netError "down", .netError "down"⟩ { file := .unreadable "boom" } authInit
    (.tokenCacheError "Failed to load cached access token: boom") rfl

/-- C1: when `register_product`'s first domain request answers 401, the
client clears the in-memory token and retries the whole operation
exactly once (two domain requests in total); when the retry's domain
request also answers 401, the operation fails with the terminal
`Unauthorized` `TokenRefreshError` raised at the client's own 401
branch — not with any of the refresh-failure (`AuthRefreshError`)
messages raised by `_refresh_access_token`. -/
theorem register_product_401_retry (p : Product) (a1 a2 : Attempt) (fs : FS) (s : AuthState)
    (tok1 tok2 b1 b2 : JVal) (x1 x2 : String)
    (hd1 : a1.domainResp = .resp 401 b1 x1) (hd2 : a2.domainResp = .resp 401 b2 x2)
    (htc1 : (getAccessToken a1.now a1.refreshResp fs s).result = .ok tok1)
    (htc2 : (getAccessToken a2.now a2.refreshResp (getAccessToken a1.now a1.refreshResp fs s).fs
        { (getAccessToken a1.now a1.refreshResp fs s).auth with
            access_token := none }).result = .ok tok2) :
    (registerProduct p a1 a2 fs s).result
      = .error (.tokenRefreshError "Unauthorized: access token is invalid or expired.") ∧
    (registerProduct p a1 a2 fs s).domainCount = 2 ∧
    (registerProduct p a1 a2 fs s).result
      ≠ .error (.tokenRefreshError "Authentication failed. The refresh token is invalid.") := by
  rcases hgc1 : getAccessToken a1.now a1.refreshResp fs s with ⟨fs1, s1, rc1, res1⟩
  rw [hgc1] at htc1 htc2
  obtain rfl : res1 = .ok tok1 := htc1
  dsimp only at htc2
  rcases hgc2 : getAccessToken a2.now a2.refreshResp fs1 { s1 with access_token := none }
    with ⟨fs2, s2, rc2, res2⟩
  rw [hgc2] at htc2
  obtain rfl : res2 = .ok tok2 := htc2
  refine ⟨?_, ?_, ?_⟩ <;>
    simp [registerProduct, registerProductStep, hgc1, hgc2, hd1, hd2]

/-- Witness for C1: both attempts answer 401 while the token fetches
succeed from a warm in-memory token resp. a refresh. -/
theorem register_product_401_retry_witness :
    (registerProduct ⟨uuidB, "n", "d", []⟩
        ⟨0, .netError "down", .resp 401 .jnull ""⟩
        ⟨0, .resp 201 (.jobj [("access_token", .jstr "tok2")]) "", .resp 401 .jnull ""⟩
        fsInit { authInit with access_token := some (.jstr "tok"), expires_at := some 100 }).result
      = .error (.tokenRefreshError "Unauthorized: access token is invalid or expired.") ∧
    (registerProduct ⟨uuidB, "n", "d", []⟩
        ⟨0, .netError "down", .resp 401 .jnull ""⟩
        ⟨0, .resp 201 (.jobj [("access_token", .jstr "tok2")]) "", .resp 401 .jnull ""⟩
        fsInit { authInit with access_token := some (.jstr "tok"), expires_at := some 100 }).domainCount = 2 ∧
    (registerProduct ⟨uuidB, "n", "d", []⟩
        ⟨0, .netError "down", .resp 401 .jnull ""⟩
        ⟨0, .resp 201 (.jobj [("access_token", .jstr "tok2")]) "", .resp 401 .jnull ""⟩
        fsInit { authInit with access_token := some (.jstr "tok"), expires_at := some 100 }).result
      ≠ .error (.tokenRefreshError "Authentication failed. The refresh token is invalid.") :=
  register_product_401_retry ⟨uuidB, "n", "d", []⟩
    ⟨0, .netError "down", .resp 401 .jnull ""⟩
    ⟨0, .resp 201 (.jobj [("access_token", .jstr "tok2")]) "", .resp 401 .jnull ""⟩
    fsInit { authInit with access_token := some (.jstr "tok"), expires_at := some 100 }
    (.jstr "tok") (.jstr "tok2") .jnull .jnull "" "" rfl rfl (by rfl) (by rfl)

/-- Helper: a successfully parsed offer carries exactly the `price` and
`items_in_stock` values read from the input dictionary. -/
theorem offerFromDict_ok_fields (data : JVal) (o : Offer) (h : offerFromDict data = .ok o) :
    getItem data "price" = .ok o.price ∧
    getItem data "items_in_stock" = .ok o.items_in_stock := by
  have hbody : offerFromDictBody data = .ok o := by
    rcases hB : offerFromDictBody data with e1 | o1
    · simp [offerFromDict, hB] at h
    · simp only [offerFromDict, hB, Except.ok.injEq] at h
      rw [h]
  rcases data with sv | nv | ⟨mv, sc⟩ | bv | _ | elems | fields
  · simp [offerFromDictBody, getItem] at hbody
  · simp [offerFromDictBody, getItem] at hbody
  · simp [offerFromDictBody, getItem] at hbody
  · simp [offerFromDictBody, getItem] at hbody
  · simp [offerFromDictBody, getItem] at hbody
  · simp [offerFromDictBody, getItem] at hbody
  rcases h1 : getItem (.jobj fields) "id" with e1 | idv
  · simp [offerFromDictBody, h1] at hbody
  rcases h2 : pyUUID idv with e2 | idS
  · simp [offerFromDictBody, h1, h2] at hbody
  rcases h3 : getItem (.jobj fields) "price" with e3 | price
  · simp [offerFromDictBody, h1, h2, h3] at hbody
  rcases h4 : getItem (.jobj fields) "items_in_stock" with e4 | items
  · simp [offerFromDictBody, h1, h2, h3, h4] at hbody
  cases hp : pyIsInt price
  · simp [offerFromDictBody, h1, h2, h3, h4, hp] at hbody
  cases hi : pyIsInt items
  · simp [offerFromDictBody, h1, h2, h3, h4, hp, hi] at hbody
  rcases hpid : jlookup fields "product_id" with _ | v
  · simp only [offerFromDictBody, h1, h2, h3, h4, hp, hi, hpid, Bool.not_true,
      Bool.false_eq_true, if_false, Except.ok.injEq] at hbody
    subst hbody
    exact ⟨rfl, rfl⟩
  · cases hv : pyFalsy v
    · rcases h5 : pyUUID v with e5 | u5
      · simp [offerFromDictBody, h1, h2, h3, h4, hp, hi, hpid, hv, h5] at hbody
      · simp only [offerFromDictBody, h1, h2, h3, h4, hp, hi, hpid, hv, h5, Bool.not_true,
          Bool.not_false, Bool.false_eq_true, if_false, if_true, Except.ok.injEq] at hbody
        subst hbody
        exact ⟨rfl, rfl⟩
    · simp only [offerFromDictBody, h1, h2, h3, h4, hp, hi, hpid, hv, Bool.not_true,
        Bool.false_eq_true, if_false, Except.ok.injEq] at hbody
      subst hbody
      exact ⟨rfl, rfl⟩

/-- C8: `get_product_with_offers` on a 200 response whose body is a
two-element offer array returns exactly the two parsed offers in input
order, each carrying the `price` and `items_in_stock` values of its
input dictionary. -/
theorem getOffers_two_offers (pid : String) (p1 p2 : JVal) (o1 o2 : Offer)
    (a1 a2 : Attempt) (fs : FS) (s : AuthState) (tok : JVal) (x : String)
    (h1 : offerFromDict p1 = .ok o1) (h2 : offerFromDict p2 = .ok o2)
    (htc : (getAccessToken a1.now a1.refreshResp fs s).result = .ok tok)
    (hresp : a1.domainResp = .resp 200 (.jarr [p1, p2]) x) :
    (getProductWithOffers pid a1 a2 fs s).result = .ok [o1, o2] ∧
    getItem p1 "price" = .ok o1.price ∧
    getItem p1 "items_in_stock" = .ok o1.items_in_stock ∧
    getItem p2 "price" = .ok o2.price ∧
    getItem p2 "items_in_stock" = .ok o2.items_in_stock := by
  obtain ⟨hp1, hi1⟩ := offerFromDict_ok_fields p1 o1 h1
  obtain ⟨hp2, hi2⟩ := offerFromDict_ok_fields p2 o2 h2
  refine ⟨?_, hp1, hi1, hp2, hi2⟩
  rcases hgc : getAccessToken a1.now a1.refreshResp fs s with ⟨fs1, s1, rc1, res1⟩
  rw [hgc] at htc
  obtain rfl : res1 = .ok tok := htc
  simp [getProductWithOffers, getOffersStep, hgc, hresp, parseOffers200, pyIterate,
    fromDictAll, h1, h2]

/-- A first offer dictionary as the API returns it. -/
def wOffer1 : JVal :=
  .jobj [("id", .jstr uuidA), ("price", .jint 1234), ("items_in_stock", .jint 99)]

/-- A second offer dictionary as the API returns it. -/
def wOffer2 : JVal :=
  .jobj [("id", .jstr uuidB), ("price", .jint 2345), ("items_in_stock", .jint 50)]

/-- The parse of `wOffer1`. -/
def wParsed1 : Offer := { id := uuidA, price := .jint 1234, items_in_stock := .jint 99 }

/-- The parse of `wOffer2`. -/
def wParsed2 : Offer := { id := uuidB, price := .jint 2345, items_in_stock := .jint 50 }

/-- Witness for C8 at the spec's example values (prices 1234 and 2345,
stock 99 and 50). -/
theorem getOffers_two_offers_witness :
    (getProductWithOffers uuidA
        ⟨0, .resp 201 (.jobj [("access_token", .jstr "tok")]) "", .resp 200 (.jarr [wOffer1, wOffer2]) ""⟩
        ⟨0, .netError "down", .netError "down"⟩ fsInit authInit).result = .ok [wParsed1, wParsed2] ∧
    getItem wOffer1 "price" = .ok wParsed1.price ∧
    getItem wOffer1 "items_in_stock" = .ok wParsed1.items_in_stock ∧
    getItem wOffer2 "price" = .ok wParsed2.price ∧
    getItem wOffer2 "items_in_stock" = .ok wParsed2.items_in_stock :=
  getOffers_two_offers uuidA wOffer1 wOffer2 wParsed1 wParsed2
    ⟨0, .resp 201 (.jobj [("access_token", .jstr "tok")]) "", .resp 200 (.jarr [wOffer1, wOffer2]) ""⟩
    ⟨0, .netError "down", .netError "down"⟩ fsInit authInit (.jstr "tok") ""
    (by rfl) (by rfl) (by rfl) rfl

end OffersSDK
